import Mathlib

/-!
Verification of the mailpy-monitor alarm-evaluation core
(`app/commons/entities.py`): the `Entry` state machine, its construction-time
validation, the debounce gate in `check_alarms`, and the hand-off to the
bounded SMS/event queue.

Modelling conventions:
* Python floats are modelled as `ℚ`; every claim is about order comparisons,
  which `ℚ` represents exactly.
* Python runtime exceptions are explicit values of `PyErr`.  A function that
  can raise returns its (possibly partially mutated) state together with an
  `Option PyErr`; `some err` means the exception propagates to the caller at
  that point.
* Shared mutable collaborators (`Group.enabled`, `PV.connected`, and the
  fullness of `sms_queue`) are passed to `check_alarms` as call-time inputs.
* Locks (`threading.RLock`) are not modelled; the embedding is sequential.
-/

namespace Mailpy

/-- Python exceptions that the modelled code can raise.
`entryException` is the repository's `EntryException` (`ConfigurationError` in
the spec); the others are Python builtins. -/
inductive PyErr where
  | entryException
  | valueError
  | attributeError
  | indexError
deriving DecidableEq, Repr

/- Modelled from the spec: the `Condition` name registry
(`app/commons/condition.py`, not present under `src/`).  §4.2 gives the closed
variant set `OutOfRange`, `SuperiorThan`, `InferiorThan`, `IncreasingStep`
plus the recognised-but-unsupported `DecreasingStep`; the names are
lower-case, matched after `condition.lower().strip()` (entities.py line 73),
and the entities docstring spells the step condition `'increasing step'`. -/
namespace Condition

def OutOfRange : String := "out of range"

def SuperiorThan : String := "superior than"

def InferiorThan : String := "inferior than"

def IncreasingStep : String := "increasing step"

def DecreasingStep : String := "decreasing step"

end Condition

/-- The condition-violation message built by `Entry.handle_condition`
(entities.py lines 208-224).  Each constructor records which Entry fields the
corresponding Python f-string interpolates, instead of rendering the string:
* `fromTo a b u`     = `f"from {a}{u} to {b} {u}"`        (line 208)
* `lowerThan a u`    = `f"lower than {a}{u}"`             (lines 213, 224)
* `higherThan a u`   = `f"higher than {a}{u}"`            (line 216) -/
inductive ViolationMessage where
  | fromTo (lo hi : ℚ) (unit : String)
  | lowerThan (bound : ℚ) (unit : String)
  | higherThan (bound : ℚ) (unit : String)
deriving DecidableEq, Repr

/-- Modelled from the spec: the `EmailEvent` value object
(`app/commons/event.py`, not present under `src/`).  §3 "Event": a plain
immutable record of the fields passed at construction (entities.py lines
249-260); the spec gives it no failure mode, so construction is total.
`value_measured` holds the measured sample; the source stores it as the
string `"{:.4}".format(value)` (4 significant digits) - that float-to-string
formatting is abstracted and the raw value kept. -/
structure EmailEvent where
  pvname : String
  specified_value_message : ViolationMessage
  unit : String
  warning : String
  subject : String
  emails : String
  condition : String
  value_measured : ℚ
deriving DecidableEq, Repr

/-- The mutable per-entry state of `Entry` (entities.py lines 56-109).
`alarm_min` / `alarm_max` are `Option` because Python only assigns them in the
`_init_*` helper of the matching condition: reading an unassigned one raises
`AttributeError`.  `min_level` / `max_level` are assigned only by
`_init_increasing_step`; they default to 0 here and are only read on the
increasing-step path, mirroring the source.  `_pv`, `group`, `sms_queue`, the
lock and the `dummy` flag are externalised (see module header). -/
structure Entry where
  pvname : String
  emails : String
  condition : String
  alarm_values : String
  unit : String
  warning_message : String
  subject : String
  email_timeout : ℚ
  alarm_min : Option ℚ := none
  alarm_max : Option ℚ := none
  step_level : ℕ := 0
  step_values : List ℚ := []
  min_level : ℕ := 0
  max_level : ℕ := 0
  last_event_time : ℚ
deriving DecidableEq, Repr

/-- Split a character list at every occurrence of `sep`, keeping empty
groups; `splitChars sep []` is `[[]]`, matching Python's
`"".split(sep) == [""]`. -/
def splitChars (sep : Char) : List Char → List (List Char)
  | [] => [[]]
  | c :: cs =>
    let rest := splitChars sep cs
    if c = sep then [] :: rest
    else
      match rest with
      | [] => [[c]]
      | g :: gs => (c :: g) :: gs

/-- Model of Python's `str.split(sep)` for a one-character separator. -/
def pySplit (s : String) (sep : Char) : List String :=
  (splitChars sep s.toList).map fun cs => String.mk cs

/-- ASCII lower-casing of one character (the configuration strings the
claims exercise are ASCII). -/
def charLower (c : Char) : Char :=
  if 65 ≤ c.toNat ∧ c.toNat ≤ 90 then Char.ofNat (c.toNat + 32) else c

/-- Model of Python's `str.lower()`. -/
def pyLower (s : String) : String := String.mk (s.toList.map charLower)

/-- The whitespace characters stripped by Python's `str.strip()` (the ones
that can occur in the modelled configuration strings). -/
def isSpaceChar (c : Char) : Bool := c = ' ' ∨ c = '\t' ∨ c = '\n' ∨ c = '\r'

/-- Model of Python's `str.strip()`: drop leading and trailing
whitespace. -/
def pyStrip (s : String) : String :=
  String.mk (((s.toList.dropWhile isSpaceChar).reverse.dropWhile
    isSpaceChar).reverse)

/-- One decimal digit, else `none`.  Helper for `parseFloat`. -/
def digitVal (c : Char) : Option ℕ :=
  if c = '0' then some 0
  else if c = '1' then some 1
  else if c = '2' then some 2
  else if c = '3' then some 3
  else if c = '4' then some 4
  else if c = '5' then some 5
  else if c = '6' then some 6
  else if c = '7' then some 7
  else if c = '8' then some 8
  else if c = '9' then some 9
  else none

/-- Accumulate a digit string into a natural number; `none` on any
non-digit. -/
def parseDigits (acc : ℕ) : List Char → Option ℕ
  | [] => some acc
  | c :: cs =>
    match digitVal c with
    | some d => parseDigits (acc * 10 + d) cs
    | none => none

/-- Model of Python's builtin `float(s)` on the plain decimal literals this
configuration format uses: optional sign, digits, optional fraction part,
surrounding whitespace stripped.  `none` models `ValueError`.  (Python also
accepts exponent and inf/nan spellings; those never occur in the modelled
configuration strings.) -/
def parseFloat (s : String) : Option ℚ :=
  let cs := (pyStrip s).toList
  let signed : ℚ × List Char :=
    match cs with
    | '-' :: rest => (-1, rest)
    | '+' :: rest => (1, rest)
    | _ => (1, cs)
  match splitChars '.' signed.2 with
  | [ip] =>
    if ip.isEmpty then none
    else (parseDigits 0 ip).map fun n => signed.1 * (n : ℚ)
  | [ip, fp] =>
    if ip.isEmpty && fp.isEmpty then none
    else
      match parseDigits 0 ip, parseDigits 0 fp with
      | some i, some f =>
        some (signed.1 * ((i : ℚ) + (f : ℚ) / (10 : ℚ) ^ fp.length))
      | _, _ => none
  | _ => none

/-- The sortedness loop of `_init_increasing_step` (entities.py lines
175-181): `s` runs over the list, each successor must be strictly greater. -/
def strictlyIncreasingFrom : ℚ → List ℚ → Bool
  | _, [] => true
  | s, v :: rest => if s ≥ v then false else strictlyIncreasingFrom v rest

/-- `Entry.__init__` (entities.py lines 56-109) together with the `_init_*`
helper selected by the condition name.  Crucial source detail: at every raise
site inside `__init__`, `self._pv` has not been assigned yet (line 71 is a
bare annotation; the assignment happens last, lines 104-109), so every error
message that interpolates `self._pv` or `{self}` (whose `__str__`, line 186,
reads `self._pv`) raises `AttributeError` before the intended
`EntryException` is constructed:
* unsupported condition, line 100: message formats `{self}`;
* `_init_out_of_range` min >= max, line 130: message reads `self._pv`;
* `_init_increasing_step` unsorted, line 179: message reads `self._pv.pvname`.
Malformed numerics raise `ValueError` straight from `float()` /
tuple-unpacking of `split`. -/
def Entry.init (pvname emails condition alarm_values unit warning_message
    subject : String) (email_timeout now : ℚ) : Except PyErr Entry :=
  let cond := pyStrip (pyLower condition)
  let base : Entry := {
    pvname := pyStrip pvname
    emails := emails
    condition := cond
    alarm_values := alarm_values
    unit := unit
    warning_message := warning_message
    subject := subject
    email_timeout := email_timeout
    -- line 88: reset last_event_time so monitoring starts right away
    last_event_time := now - email_timeout }
  if cond = Condition.OutOfRange then
    -- _init_out_of_range, lines 124-131
    match pySplit alarm_values ':' with
    | [a, b] =>
      match parseFloat a with
      | none => .error .valueError
      | some amin =>
        match parseFloat b with
        | none => .error .valueError
        | some amax =>
          if amin ≥ amax then
            -- line 129's EntryException message reads self._pv: AttributeError
            .error .attributeError
          else
            .ok { base with alarm_min := some amin, alarm_max := some amax }
    | _ => .error .valueError -- `_min, _max = split(":")` unpack arity
  else if cond = Condition.SuperiorThan then
    -- _init_superior_than, lines 133-134: only alarm_max is assigned
    match parseFloat alarm_values with
    | none => .error .valueError
    | some amax => .ok { base with alarm_max := some amax }
  else if cond = Condition.InferiorThan then
    -- _init_inferior_than, lines 136-137: only alarm_min is assigned
    match parseFloat alarm_values with
    | none => .error .valueError
    | some amin => .ok { base with alarm_min := some amin }
  else if cond = Condition.IncreasingStep then
    -- _init_increasing_step, lines 139-183
    let parts := (pySplit alarm_values ':').map parseFloat
    if parts.any Option.isNone then .error .valueError
    else
      match parts.reduceOption with
      | [] => .error .indexError -- line 175 `step_values[0]` (unreachable)
      | v0 :: rest =>
        if strictlyIncreasingFrom v0 rest then
          .ok { base with
            step_level := 0
            step_values := v0 :: rest
            min_level := 0
            max_level := (v0 :: rest).length }
        else
          -- line 178's EntryException message reads self._pv: AttributeError
          .error .attributeError
  else
    -- line 100: EntryException message formats {self}: AttributeError
    .error .attributeError

/-- `Entry._find_next_level` (entities.py lines 188-196): index of the first
threshold strictly above `value`, or the list length if there is none. -/
def find_next_level : List ℚ → ℚ → ℕ
  | [], _ => 0
  | sv :: rest, value =>
    if value < sv then 0 else find_next_level rest value + 1

/-- Outcome of `Entry.handle_condition`: final state (including mutations made
before an exception), the constructed `EmailEvent` if any, and the exception
propagating out, if any. -/
structure HCResult where
  state : Entry
  event : Option EmailEvent
  err : Option PyErr
deriving DecidableEq, Repr

/-- The `EmailEvent` construction of entities.py lines 249-260. -/
def mkEmailEvent (e : Entry) (msg : ViolationMessage) (value : ℚ) :
    EmailEvent :=
  { pvname := e.pvname
    specified_value_message := msg
    unit := e.unit
    warning := e.warning_message
    subject := e.subject
    emails := e.emails
    condition := e.condition
    value_measured := value }

/-- `Entry.handle_condition` (entities.py lines 198-266).  Attribute reads of
`alarm_min` / `alarm_max` follow Python's evaluation order, including the
short-circuit in the `or` of the out-of-range test and the reads performed by
the message f-strings; an unassigned attribute raises `AttributeError`.
On the increasing-step path, line 219 indexes `step_values[step_level]`
unconditionally (IndexError once `step_level == max_level`); the four
subsequent `if` statements are guarded by `value >= next` / `value < next`
on the ORIGINAL `next`, so after the ascending branch fires the descending
branch cannot, and the two `pass` branches (lines 226-232) have no effect.
The trailing `try/except EntryException/finally: return event` wraps only the
`EmailEvent` construction, which is total in this model. -/
def handle_condition (e : Entry) (value : ℚ) : HCResult :=
  if e.condition = Condition.OutOfRange then
    match e.alarm_min with
    | none => ⟨e, none, some .attributeError⟩
    | some amin =>
      if value < amin then
        -- violation via the lower bound; the message reads alarm_max too
        match e.alarm_max with
        | none => ⟨e, none, some .attributeError⟩
        | some amax =>
          ⟨e, some (mkEmailEvent e (.fromTo amin amax e.unit) value), none⟩
      else
        match e.alarm_max with
        | none => ⟨e, none, some .attributeError⟩
        | some amax =>
          if value > amax then
            ⟨e, some (mkEmailEvent e (.fromTo amin amax e.unit) value), none⟩
          else ⟨e, none, none⟩
  else if e.condition = Condition.SuperiorThan then
    match e.alarm_max with
    | none => ⟨e, none, some .attributeError⟩
    | some amax =>
      if value > amax then
        -- line 213: the message f-string reads self.alarm_min, which
        -- _init_superior_than never assigns
        match e.alarm_min with
        | none => ⟨e, none, some .attributeError⟩
        | some amin =>
          ⟨e, some (mkEmailEvent e (.lowerThan amin e.unit) value), none⟩
      else ⟨e, none, none⟩
  else if e.condition = Condition.InferiorThan then
    match e.alarm_min with
    | none => ⟨e, none, some .attributeError⟩
    | some amin =>
      if value < amin then
        ⟨e, some (mkEmailEvent e (.higherThan amin e.unit) value), none⟩
      else ⟨e, none, none⟩
  else if e.condition = Condition.IncreasingStep then
    -- line 219: next_step_limiar = step_values[step_level]
    match e.step_values[e.step_level]? with
    | none => ⟨e, none, some .indexError⟩
    | some next =>
      if next ≤ value ∧ e.step_level + 1 ≤ e.max_level then
        -- ascending, lines 220-224
        let e1 : Entry :=
          { e with step_level := find_next_level e.step_values value }
        match e.step_values[0]? with
        | none => ⟨e1, none, some .indexError⟩
        | some s0 =>
          ⟨e1, some (mkEmailEvent e1 (.lowerThan s0 e.unit) value), none⟩
      else if next ≤ value then
        -- value >= next but the ascending guard failed: only the `pass`
        -- branch at lines 226-228 can apply
        ⟨e, none, none⟩
      else if e.step_level = e.min_level then
        -- at the lowest level, lines 230-232
        ⟨e, none, none⟩
      else
        -- descending test, lines 234-238
        match e.step_values[e.step_level - 1]? with
        | none => ⟨e, none, some .indexError⟩
        | some prev =>
          if value < prev then
            ⟨{ e with step_level := find_next_level e.step_values value },
              none, none⟩
          else ⟨e, none, none⟩
  else
    -- no branch matches: specified_value_message stays None, no event
    ⟨e, none, none⟩

/-- Outcome of `Entry.check_alarms`: final state, the `EmailEvent` constructed
by `handle_condition` (if any), whether the non-blocking
`sms_queue.put` succeeded, and the exception propagating out, if any. -/
structure CAResult where
  state : Entry
  constructed : Option EmailEvent
  enqueued : Bool
  err : Option PyErr
deriving DecidableEq, Repr

/-- `Entry.check_alarms` (entities.py lines 272-307).  `groupEnabled`,
`pvConnected` are the call-time readings of `self.group.enabled` and
`self._pv.connected`; `timestamp` is the `time.time()` reading of line 287;
`queueFull` says whether the non-blocking `sms_queue.put` raises
`queue.Full`.  The `try` block catches ONLY `queue.Full` (line 304): when the
queue is full the event is dropped, the `last_event_time` update on line 301
is skipped (the assignment follows the `put`), and nothing propagates; any
other exception raised by `handle_condition` propagates out. -/
def check_alarms (e : Entry) (groupEnabled pvConnected : Bool)
    (timestamp value : ℚ) (queueFull : Bool) : CAResult :=
  if !groupEnabled then ⟨e, none, false, none⟩
  else if !pvConnected then ⟨e, none, false, none⟩
  else
    let timedelta := timestamp - e.last_event_time
    if timedelta < e.email_timeout then ⟨e, none, false, none⟩
    else
      let r := handle_condition e value
      match r.err with
      | some err => ⟨r.state, none, false, some err⟩
      | none =>
        match r.event with
        | none => ⟨r.state, none, false, none⟩
        | some ev =>
          if queueFull then
            -- queue.Full caught at line 304: event dropped, no timestamp
            -- update, no propagation
            ⟨r.state, some ev, false, none⟩
          else
            ⟨{ r.state with last_event_time := timestamp }, some ev, true,
              none⟩


/-! ## Concrete entries used by the claim theorems -/

/-- An out-of-range entry as `Entry.__init__` leaves it: both bounds
assigned, step state at its defaults. -/
def mkRangeEntry (amin amax timeout last : ℚ) : Entry :=
  { pvname := "PV", emails := "ops@x", condition := Condition.OutOfRange,
    alarm_values := "", unit := "u", warning_message := "w", subject := "s",
    email_timeout := timeout, alarm_min := some amin, alarm_max := some amax,
    last_event_time := last }

/-- A superior-than entry as `Entry._init_superior_than` leaves it: only
`alarm_max` assigned, `alarm_min` unassigned. -/
def mkSupEntry (amax timeout last : ℚ) : Entry :=
  { pvname := "PV", emails := "ops@x", condition := Condition.SuperiorThan,
    alarm_values := "", unit := "u", warning_message := "w", subject := "s",
    email_timeout := timeout, alarm_max := some amax,
    last_event_time := last }

/-- An increasing-step entry as `Entry._init_increasing_step` leaves it
(modulo later `step_level` mutations by `handle_condition`). -/
def mkStepEntry (vals : List ℚ) (lvl : ℕ) (timeout last : ℚ) : Entry :=
  { pvname := "PV", emails := "ops@x", condition := Condition.IncreasingStep,
    alarm_values := "", unit := "u", warning_message := "w", subject := "s",
    email_timeout := timeout, step_level := lvl, step_values := vals,
    min_level := 0, max_level := vals.length, last_event_time := last }

/-! ## Helper lemmas -/

lemma find_next_level_le (vs : List ℚ) (v : ℚ) :
    find_next_level vs v ≤ vs.length := by
  induction vs with
  | nil => simp [find_next_level]
  | cons sv rest ih =>
    simp only [find_next_level, List.length_cons]
    split
    · exact Nat.zero_le _
    · exact Nat.succ_le_succ ih

lemma handle_condition_last_event_time (e : Entry) (v : ℚ) :
    (handle_condition e v).state.last_event_time = e.last_event_time := by
  unfold handle_condition
  repeat' split
  all_goals rfl

lemma handle_condition_step_values (e : Entry) (v : ℚ) :
    (handle_condition e v).state.step_values = e.step_values := by
  unfold handle_condition
  repeat' split
  all_goals rfl

lemma handle_condition_step_level_cases (e : Entry) (v : ℚ) :
    (handle_condition e v).state.step_level = e.step_level ∨
    (handle_condition e v).state.step_level = find_next_level e.step_values v := by
  unfold handle_condition
  repeat' split
  all_goals simp

/-- Every run of `check_alarms` has one of five shapes: skipped by a guard,
exception propagating out of `handle_condition`, no violation, event dropped
on a full queue, or event enqueued with the timestamp update. -/
lemma check_alarms_shape (e : Entry) (gE pC : Bool) (ts v : ℚ) (qF : Bool) :
    check_alarms e gE pC ts v qF = ⟨e, none, false, none⟩ ∨
    (∃ err, check_alarms e gE pC ts v qF =
      ⟨(handle_condition e v).state, none, false, some err⟩) ∨
    check_alarms e gE pC ts v qF =
      ⟨(handle_condition e v).state, none, false, none⟩ ∨
    (∃ ev, (handle_condition e v).event = some ev ∧ qF = true ∧
      check_alarms e gE pC ts v qF =
        ⟨(handle_condition e v).state, some ev, false, none⟩) ∨
    (∃ ev, (handle_condition e v).event = some ev ∧ qF = false ∧
      check_alarms e gE pC ts v qF =
        ⟨{ (handle_condition e v).state with last_event_time := ts }, some ev,
          true, none⟩) := by
  cases gE with
  | false => left; rfl
  | true =>
    cases pC with
    | false => left; rfl
    | true =>
      by_cases hdeb : ts - e.last_event_time < e.email_timeout
      · left
        simp [check_alarms, hdeb]
      · cases herr : (handle_condition e v).err with
        | some err =>
          right; left
          exact ⟨err, by simp [check_alarms, hdeb, herr]⟩
        | none =>
          cases hev : (handle_condition e v).event with
          | none =>
            right; right; left
            simp [check_alarms, hdeb, herr, hev]
          | some ev =>
            cases qF with
            | true =>
              right; right; right; left
              exact ⟨ev, rfl, rfl, by simp [check_alarms, hdeb, herr, hev]⟩
            | false =>
              right; right; right; right
              exact ⟨ev, rfl, rfl, by simp [check_alarms, hdeb, herr, hev]⟩

/-! ## Claim theorems -/

/-- C9: for every Entry whose group is disabled at call time, `check_alarms`
returns no event and leaves the whole Entry state (in particular
`last_event_time` and `step_level`) unchanged, for any sample, timestamp,
connectivity and queue state. -/
theorem c9_disabled_group_no_effect (e : Entry) (pC : Bool) (ts v : ℚ)
    (qF : Bool) :
    check_alarms e false pC ts v qF = ⟨e, none, false, none⟩ := rfl

/-- C1 counterexample: an out-of-range entry with a violating sample and a
full queue constructs an event, yet `last_event_time` stays 0 instead of
being set to the evaluation timestamp 100 - refuting "the update is gated
only on successful construction of the event, not on queue success". -/
theorem c1_counterexample :
    (check_alarms (mkRangeEntry 0 1 10 0) true true 100 5 true).constructed.isSome
      = true ∧
    (check_alarms (mkRangeEntry 0 1 10 0) true true 100 5 true).state.last_event_time
      ≠ 100 := by
  norm_num +decide [check_alarms, handle_condition, mkEmailEvent, mkRangeEntry,
    Condition.OutOfRange]

/-- C1 amended: when `check_alarms` constructs an event, `last_event_time`
is set to the evaluation timestamp only if the non-blocking enqueue
succeeds; on queue-full the update is skipped and the old value kept. -/
theorem c1_last_event_time_gated_on_enqueue (e : Entry) (gE pC : Bool)
    (ts v : ℚ) (qF : Bool)
    (h : (check_alarms e gE pC ts v qF).constructed.isSome = true) :
    (check_alarms e gE pC ts v qF).state.last_event_time =
      if qF then e.last_event_time else ts := by
  rcases check_alarms_shape e gE pC ts v qF with
    h1 | ⟨err, h1⟩ | h1 | ⟨ev, hev, hq, h1⟩ | ⟨ev, hev, hq, h1⟩
  · rw [h1] at h; simp at h
  · rw [h1] at h; simp at h
  · rw [h1] at h; simp at h
  · rw [h1, hq]; simp [handle_condition_last_event_time]
  · rw [h1, hq]; simp

/-- C1 witness: the amended theorem applied at concrete inputs, once with a
full queue and once with a free one. -/
theorem c1_witness :
    (check_alarms (mkRangeEntry 0 1 10 0) true true 100 5 true).state.last_event_time
      = (if true then (mkRangeEntry 0 1 10 0).last_event_time else 100) ∧
    (check_alarms (mkRangeEntry 0 1 10 0) true true 100 5 false).state.last_event_time
      = (if false then (mkRangeEntry 0 1 10 0).last_event_time else 100) :=
  ⟨c1_last_event_time_gated_on_enqueue (mkRangeEntry 0 1 10 0) true true 100 5 true
      (by norm_num +decide [check_alarms, handle_condition, mkEmailEvent, mkRangeEntry,
        Condition.OutOfRange]),
    c1_last_event_time_gated_on_enqueue (mkRangeEntry 0 1 10 0) true true 100 5 false
      (by norm_num +decide [check_alarms, handle_condition, mkEmailEvent, mkRangeEntry,
        Condition.OutOfRange])⟩

/-- C2 (code bug): an increasing-step entry with thresholds
`[1.5, 2.0, 2.5, 3.0]` reaches `step_level = 4` (= max level) on sample 10;
evaluating ANY further sample then raises `IndexError` at
`step_values[step_level]` (entities.py line 219) instead of the specified
"no event, level unchanged", and the error escapes `check_alarms`. -/
theorem c2_step_ceiling_index_error :
    (handle_condition (mkStepEntry [3/2, 2, 5/2, 3] 0 10 0) 10).state =
      mkStepEntry [3/2, 2, 5/2, 3] 4 10 0 ∧
    handle_condition (mkStepEntry [3/2, 2, 5/2, 3] 4 10 0) 10 =
      ⟨mkStepEntry [3/2, 2, 5/2, 3] 4 10 0, none, some PyErr.indexError⟩ ∧
    (check_alarms (mkStepEntry [3/2, 2, 5/2, 3] 4 10 0) true true 100 10 false).err
      = some PyErr.indexError := by
  norm_num +decide [check_alarms, handle_condition, mkEmailEvent, mkStepEntry,
    find_next_level, Condition.OutOfRange, Condition.SuperiorThan,
    Condition.InferiorThan, Condition.IncreasingStep]

/-- C3 (code bug): a superior-than entry built by `Entry.__init__` has no
`alarm_min` attribute, so a violating sample (6 > 5) raises
`AttributeError` in the message f-string of entities.py line 213 instead of
returning an Event; a non-violating sample (4) completes normally. -/
theorem c3_superior_than_attribute_error :
    Entry.init "PV" "ops@x" "superior than" "5.0" "u" "w" "s" 10 10 =
      .ok { mkSupEntry 5 10 0 with alarm_values := "5.0" } ∧
    handle_condition { mkSupEntry 5 10 0 with alarm_values := "5.0" } 6 =
      ⟨{ mkSupEntry 5 10 0 with alarm_values := "5.0" }, none,
        some PyErr.attributeError⟩ ∧
    handle_condition { mkSupEntry 5 10 0 with alarm_values := "5.0" } 4 =
      ⟨{ mkSupEntry 5 10 0 with alarm_values := "5.0" }, none, none⟩ := by
  norm_num +decide [Entry.init, handle_condition, mkEmailEvent, mkSupEntry,
    pyStrip, pyLower, pySplit, splitChars, charLower, isSpaceChar, parseFloat,
    parseDigits, digitVal, Condition.OutOfRange, Condition.SuperiorThan,
    Condition.InferiorThan, Condition.IncreasingStep]

/-- C4 (code bug): no construction-error path raises the repository's
`EntryException`: inverted range bounds, non-increasing step thresholds and
an unsupported condition name ("decreasing step") all raise
`AttributeError` (the error message reads the not-yet-assigned `self._pv`),
and malformed numerics raise `ValueError` from `float()`; in each case the
Entry is never created. -/
theorem c4_construction_error_types :
    Entry.init "PV" "ops@x" "out of range" "5:1" "u" "w" "s" 10 0 =
      .error PyErr.attributeError ∧
    Entry.init "PV" "ops@x" "increasing step" "1.5:1.0" "u" "w" "s" 10 0 =
      .error PyErr.attributeError ∧
    Entry.init "PV" "ops@x" "decreasing step" "1.0" "u" "w" "s" 10 0 =
      .error PyErr.attributeError ∧
    Entry.init "PV" "ops@x" "out of range" "abc:2" "u" "w" "s" 10 0 =
      .error PyErr.valueError := by
  norm_num +decide [Entry.init, pyStrip, pyLower, pySplit, splitChars,
    charLower, isSpaceChar, parseFloat, parseDigits, digitVal,
    strictlyIncreasingFrom, Condition.OutOfRange, Condition.SuperiorThan,
    Condition.InferiorThan, Condition.IncreasingStep]

/-- C5 (code bug): runtime evaluation CAN throw across the `check_alarms`
boundary: a violating sample on a superior-than entry propagates
`AttributeError`, and any sample on an increasing-step entry at its maximum
level propagates `IndexError` - neither is absorbed into "no event". -/
theorem c5_check_alarms_propagates_exception :
    check_alarms { mkSupEntry 5 10 0 with alarm_values := "5.0" } true true 100 6
        false =
      ⟨{ mkSupEntry 5 10 0 with alarm_values := "5.0" }, none, false,
        some PyErr.attributeError⟩ ∧
    (check_alarms (mkStepEntry [3/2, 2, 5/2, 3] 4 10 0) true true 100 10 true).err
      = some PyErr.indexError := by
  norm_num +decide [check_alarms, handle_condition, mkEmailEvent, mkSupEntry,
    mkStepEntry, find_next_level, Condition.OutOfRange, Condition.SuperiorThan,
    Condition.InferiorThan, Condition.IncreasingStep]

/-- C6: for every increasing-step entry strictly below its maximum level
whose sample reaches the current threshold, `handle_condition` recomputes
`step_level` as the smallest index whose threshold exceeds the sample (the
list length if none) and emits exactly one event whose message references
`step_values[0]`; and in the spec's concrete scenario (thresholds
`[1.5, 2.0, 2.5, 3.0]`, level 0) sample 2.7 gives level 3 with exactly one
enqueued event, after which sample 1.0 gives level 0 and no event. -/
theorem c6_step_ascent :
    (∀ (e : Entry) (v : ℚ),
      e.condition = Condition.IncreasingStep →
      e.max_level = e.step_values.length →
      ∀ (hlt : e.step_level < e.step_values.length),
      e.step_values.get ⟨e.step_level, hlt⟩ ≤ v →
      handle_condition e v =
        ⟨{ e with step_level := find_next_level e.step_values v },
          some (mkEmailEvent { e with step_level := find_next_level e.step_values v }
            (ViolationMessage.lowerThan e.step_values.headI e.unit) v),
          none⟩) ∧
    ((check_alarms (mkStepEntry [3/2, 2, 5/2, 3] 0 10 0) true true 100 (27/10)
        false).state.step_level = 3 ∧
     (check_alarms (mkStepEntry [3/2, 2, 5/2, 3] 0 10 0) true true 100 (27/10)
        false).enqueued = true ∧
     (check_alarms (mkStepEntry [3/2, 2, 5/2, 3] 3 10 100) true true 200 1
        false).state.step_level = 0 ∧
     (check_alarms (mkStepEntry [3/2, 2, 5/2, 3] 3 10 100) true true 200 1
        false).constructed = none) := by
  constructor
  · intro e v hcond hmax hlt hv
    have hne1 : ¬(e.condition = Condition.OutOfRange) := by rw [hcond]; decide
    have hne2 : ¬(e.condition = Condition.SuperiorThan) := by rw [hcond]; decide
    have hne3 : ¬(e.condition = Condition.InferiorThan) := by rw [hcond]; decide
    have h0 : 0 < e.step_values.length := Nat.lt_of_le_of_lt (Nat.zero_le _) hlt
    have hnext : e.step_values[e.step_level]? =
        some (e.step_values.get ⟨e.step_level, hlt⟩) := by
      rw [List.getElem?_eq_getElem hlt, List.get_eq_getElem]
    have hhead : e.step_values[0]? = some e.step_values.headI := by
      cases hsv : e.step_values with
      | nil => rw [hsv] at h0; simp at h0
      | cons a rest => simp [List.headI]
    have hfire : e.step_values.get ⟨e.step_level, hlt⟩ ≤ v ∧
        e.step_level + 1 ≤ e.max_level := ⟨hv, by rw [hmax]; exact hlt⟩
    simp only [handle_condition, if_neg hne1, if_neg hne2, if_neg hne3,
      if_pos hcond, hnext, hhead, if_pos hfire]
  · norm_num +decide [check_alarms, handle_condition, mkEmailEvent, mkStepEntry,
      find_next_level, Condition.OutOfRange, Condition.SuperiorThan,
      Condition.InferiorThan, Condition.IncreasingStep]

/-- C6 witness: the ascent branch of the theorem at the concrete entry
(thresholds `[1.5, 2.0, 2.5, 3.0]`, level 0) and sample 2.7. -/
theorem c6_witness :
    handle_condition (mkStepEntry [3/2, 2, 5/2, 3] 0 10 0) (27/10) =
      ⟨{ mkStepEntry [3/2, 2, 5/2, 3] 0 10 0 with
          step_level := find_next_level [3/2, 2, 5/2, 3] (27/10) },
        some (mkEmailEvent
          { mkStepEntry [3/2, 2, 5/2, 3] 0 10 0 with
              step_level := find_next_level [3/2, 2, 5/2, 3] (27/10) }
          (ViolationMessage.lowerThan ([(3:ℚ)/2, 2, 5/2, 3].headI)
            (mkStepEntry [3/2, 2, 5/2, 3] 0 10 0).unit) (27/10)),
        none⟩ :=
  c6_step_ascent.1 (mkStepEntry [3/2, 2, 5/2, 3] 0 10 0) (27/10) rfl rfl
    (by norm_num [mkStepEntry]) (by norm_num [mkStepEntry])

/-- C7: whenever the elapsed time since `last_event_time` is strictly below
`email_timeout`, `check_alarms` returns nothing and mutates no state; and in
the two-sample scenario on a violating out-of-range entry, samples at `t0`
and `t0 + T - eps` yield exactly one event while samples at `t0` and
`t0 + T + eps` yield two. -/
theorem c7_debounce :
    (∀ (e : Entry) (gE pC : Bool) (ts v : ℚ) (qF : Bool),
      ts - e.last_event_time < e.email_timeout →
      check_alarms e gE pC ts v qF = ⟨e, none, false, none⟩) ∧
    (∀ (amin amax T t0 eps last v : ℚ),
      amin ≤ amax → amax < v → 0 < eps → T ≤ t0 - last →
      check_alarms (mkRangeEntry amin amax T last) true true t0 v false =
        ⟨{ mkRangeEntry amin amax T last with last_event_time := t0 },
          some (mkEmailEvent (mkRangeEntry amin amax T last)
            (ViolationMessage.fromTo amin amax "u") v), true, none⟩ ∧
      check_alarms { mkRangeEntry amin amax T last with last_event_time := t0 }
          true true (t0 + T - eps) v false =
        ⟨{ mkRangeEntry amin amax T last with last_event_time := t0 }, none,
          false, none⟩ ∧
      (check_alarms { mkRangeEntry amin amax T last with last_event_time := t0 }
          true true (t0 + T + eps) v false).enqueued = true) := by
  constructor
  · intro e gE pC ts v qF hdeb
    cases gE with
    | false => rfl
    | true =>
      cases pC with
      | false => rfl
      | true => simp [check_alarms, hdeb]
  · intro amin amax T t0 eps last v h1 h2 h3 h4
    have hvmin : ¬(v < amin) := not_lt.mpr (le_of_lt (lt_of_le_of_lt h1 h2))
    have hfirst : ¬(t0 - last < T) := not_lt.mpr h4
    have hsecond : (t0 + T - eps) - t0 < T := by linarith
    have hthird : ¬((t0 + T + eps) - t0 < T) := by
      apply not_lt.mpr; linarith
    refine ⟨?_, ?_, ?_⟩
    · simp [check_alarms, handle_condition, mkRangeEntry, Condition.OutOfRange,
        hvmin, hfirst, h2]
    · simp [check_alarms, mkRangeEntry, hsecond]
    · simp [check_alarms, handle_condition, mkRangeEntry, Condition.OutOfRange,
        hvmin, hthird, h2]

/-- C7 witness: the debounce guard applied at a concrete entry and both
halves of the two-sample scenario at `amin = 0`, `amax = 1`, `T = 10`,
`t0 = 100`, `eps = 1`, `last = 0`, `v = 2`. -/
theorem c7_witness :
    check_alarms (mkRangeEntry 0 1 10 0) true true 5 2 false =
      ⟨mkRangeEntry 0 1 10 0, none, false, none⟩ ∧
    (check_alarms { mkRangeEntry 0 1 10 0 with last_event_time := 100 }
        true true (100 + 10 + 1) 2 false).enqueued = true :=
  ⟨c7_debounce.1 (mkRangeEntry 0 1 10 0) true true 5 2 false
      (by norm_num [mkRangeEntry]),
    ((c7_debounce.2 0 1 10 100 1 0 2 (by norm_num) (by norm_num) (by norm_num)
      (by norm_num)).2.2)⟩

/-- C8: `step_level` always lies in `[0, len(step_values)]`: construction
initialises it to 0 (which satisfies the bound), and every `check_alarms`
call preserves the bound - including runs that raise, since
`_find_next_level` always returns a level of at most the list length. -/
theorem c8_step_level_invariant :
    (∀ (pvname emails condition alarm_values unit warning_message
        subject : String) (email_timeout now : ℚ) (e : Entry),
      Entry.init pvname emails condition alarm_values unit warning_message
        subject email_timeout now = .ok e →
      e.step_level = 0 ∧ e.step_level ≤ e.step_values.length) ∧
    (∀ (e : Entry) (gE pC : Bool) (ts v : ℚ) (qF : Bool),
      e.step_level ≤ e.step_values.length →
      (check_alarms e gE pC ts v qF).state.step_level ≤
        (check_alarms e gE pC ts v qF).state.step_values.length) := by
  constructor
  · intro pvname emails condition alarm_values unit warning_message subject
      email_timeout now e h
    simp only [Entry.init] at h
    repeat' split at h
    all_goals first
      | exact Except.noConfusion h
      | (injection h with h2; subst h2; simp)
  · intro e gE pC ts v qF hinv
    have hsv := handle_condition_step_values e v
    have hlvl := handle_condition_step_level_cases e v
    rcases check_alarms_shape e gE pC ts v qF with
      h | ⟨err, h⟩ | h | ⟨ev, hev, hq, h⟩ | ⟨ev, hev, hq, h⟩ <;> rw [h]
    · exact hinv
    all_goals (
      simp only [hsv]
      rcases hlvl with h1 | h1 <;> rw [h1]
      · exact hinv
      · exact find_next_level_le e.step_values v)

/-- C8 witness: the invariant at a concrete construction and a concrete
evaluation that moves the level. -/
theorem c8_witness :
    ({ pvname := "PV", emails := "a@b", condition := "increasing step",
       alarm_values := "1.5:2.0:2.5:3.0", unit := "u", warning_message := "w",
       subject := "s", email_timeout := 10, step_values := [3/2, 2, 5/2, 3],
       max_level := 4, last_event_time := -10 : Entry}.step_level = 0 ∧
     ({ pvname := "PV", emails := "a@b", condition := "increasing step",
        alarm_values := "1.5:2.0:2.5:3.0", unit := "u", warning_message := "w",
        subject := "s", email_timeout := 10, step_values := [3/2, 2, 5/2, 3],
        max_level := 4, last_event_time := -10 : Entry}).step_level ≤
       [(3:ℚ)/2, 2, 5/2, 3].length) ∧
    (check_alarms (mkStepEntry [3/2, 2, 5/2, 3] 0 10 0) true true 100 10
        false).state.step_level ≤
      (check_alarms (mkStepEntry [3/2, 2, 5/2, 3] 0 10 0) true true 100 10
        false).state.step_values.length :=
  ⟨c8_step_level_invariant.1 "PV" "a@b" "increasing step" "1.5:2.0:2.5:3.0"
      "u" "w" "s" 10 0 _
      (by norm_num +decide [Entry.init, pyStrip, pyLower, pySplit, splitChars,
        charLower, isSpaceChar, parseFloat, parseDigits, digitVal,
        strictlyIncreasingFrom, Condition.OutOfRange, Condition.SuperiorThan,
        Condition.InferiorThan, Condition.IncreasingStep]),
    c8_step_level_invariant.2 (mkStepEntry [3/2, 2, 5/2, 3] 0 10 0) true true
      100 10 false (by norm_num [mkStepEntry])⟩

end Mailpy
